import Mathlib

/-!
# Verification of the aidol-vtuber backend session layer

A shallow embedding of the WebSocket session layer of the aidol-vtuber
backend (`src/backend/src/open_llm_vtuber/websocket_handler.py`) and of the
default backend adapter (`adapters/orphiq_adapter.py`), with theorems about
message routing, backend-mode switching, adapter state, audio ingestion and
interrupt dispatch.

Conventions of the embedding:
* Python dicts keyed by client uid become functions `String → Option α`;
  `dict.pop` / assignment become the point update `upd`.
* Exceptions become either `Except`-style results or an `Option String`
  error component carried next to the state (a `some` means the Python
  handler raised with that message and the partial state mutations made
  before the raise persist, exactly as in Python).
* Messages sent over a WebSocket become a list of `(recipient uid, Envelope)`
  pairs, in send order.
* External collaborators (the VAD engine, the agent engine, the transport)
  are oracles: their outputs are passed in as explicit arguments, so every
  theorem quantifies over all behaviours of the collaborator.
* Python object identity for adapters is embedded by a ghost creation stamp
  `createdAt` drawn from a monotone counter `nextStamp` in the handler
  state: a fresh `OrphiqAdapter(...)` instance receives the current counter
  value, so "instance created before the switch" = `createdAt` below the
  counter value at switch time.
-/

namespace AIdolVtuber

/-- The per-session service-context fields that the embedded handlers and the
`OrphiqAdapter` actually read (`service_context.character_config`,
`live2d_model`): character/config identity data. -/
structure Ctx where
  confUid : String
  characterName : String
  humanName : String
  avatar : String
  modelName : String
deriving DecidableEq, Repr

/-- The motion record stored by `OrphiqAdapter.trigger_motion` into
`self._current_motion` (`orphiq_adapter.py` lines 161-165). -/
structure MotionState where
  group : String
  index : Int
  loop : Bool
deriving DecidableEq, Repr

/-- An `OrphiqAdapter` instance: its captured `service_context`, the mutable
trigger state `_current_expression` / `_current_motion`, and the ghost
creation stamp embedding Python object identity. -/
structure Adapter where
  context : Ctx
  createdAt : Nat
  currentExpression : Option Int
  currentMotion : Option MotionState
deriving DecidableEq, Repr

/-- Result dict of `OrphiqAdapter.trigger_expression`: either the success
record echoing the arguments or `{status: "error", error: msg}`. -/
inductive ExprResult where
  | success (expressionId : Int) (duration : Option Int) (priority : Int)
  | error (error : String)
deriving DecidableEq, Repr

/-- The `status` field of a `trigger_expression` result dict. -/
def ExprResult.status : ExprResult → String
  | .success _ _ _ => "success"
  | .error _ => "error"

/-- Result dict of `OrphiqAdapter.trigger_motion`. -/
inductive MotionResult where
  | success (motionGroup : String) (motionIndex : Int) (loop : Bool) (priority : Int)
  | error (error : String)
deriving DecidableEq, Repr

/-- The `status` field of a `trigger_motion` result dict. -/
def MotionResult.status : MotionResult → String
  | .success _ _ _ _ => "success"
  | .error _ => "error"

/-- The JSON envelopes the embedded handlers send, mirroring the
`json.dumps({...})` payloads of `websocket_handler.py` and
`orphiq_adapter.py`. -/
inductive Envelope where
  | error (message : String)
  | backendModeSet (mode : String)
  | backendMode (mode : String)
  | control (text : String)
  | textGenerationChunk (text : String) (isComplete : Bool)
  | textGenerationResponse (text : String) (isComplete : Bool)
  | expressionAck (expressionId : Int) (result : ExprResult)
  | motionAck (motionGroup : String) (motionIndex : Int) (result : MotionResult)
  | audioAction (text : String) (name : String) (avatar : String) (expressions : List Int)
  | motionCommandMsg (motionGroup : String) (motionIndex : Int) (loop : Bool) (priority : Int)
deriving DecidableEq, Repr

/-- A message delivered to a client: recipient uid and payload. -/
abbrev Send := String × Envelope

/-- `OrphiqAdapter.trigger_expression` (`orphiq_adapter.py` lines 72-127).
`connPresent` is whether `client_connections` still holds the client (the
`websocket_send` closure built in `_get_adapter` silently does nothing when
it does not); `sendErr = some m` means `WebSocket.send_text` raised with
message `m`. `self._current_expression` is assigned only after the send
returns, and any exception is caught and turned into an error record. -/
def triggerExpression (a : Adapter) (expressionId : Int) (duration : Option Int)
    (priority : Int) (connPresent : Bool) (sendErr : Option String) :
    Adapter × ExprResult × List Envelope :=
  if connPresent then
    match sendErr with
    | some m => (a, ExprResult.error m, [])
    | none =>
      ({ a with currentExpression := some expressionId },
       ExprResult.success expressionId duration priority,
       [Envelope.audioAction ("Expression " ++ toString expressionId)
          a.context.characterName a.context.avatar [expressionId]])
  else
    ({ a with currentExpression := some expressionId },
     ExprResult.success expressionId duration priority, [])

/-- `OrphiqAdapter.trigger_motion` (`orphiq_adapter.py` lines 129-180);
same send/assignment/except discipline as `triggerExpression`. -/
def triggerMotion (a : Adapter) (motionGroup : String) (motionIndex : Int)
    (loop : Bool) (priority : Int) (connPresent : Bool) (sendErr : Option String) :
    Adapter × MotionResult × List Envelope :=
  if connPresent then
    match sendErr with
    | some m => (a, MotionResult.error m, [])
    | none =>
      ({ a with currentMotion := some ⟨motionGroup, motionIndex, loop⟩ },
       MotionResult.success motionGroup motionIndex loop priority,
       [Envelope.motionCommandMsg motionGroup motionIndex loop priority])
  else
    ({ a with currentMotion := some ⟨motionGroup, motionIndex, loop⟩ },
     MotionResult.success motionGroup motionIndex loop priority, [])

/-- The snapshot dict returned by `OrphiqAdapter.get_character_state`
(`orphiq_adapter.py` lines 182-195). -/
structure CharacterState where
  characterName : String
  modelName : String
  currentExpression : Option Int
  currentMotion : Option MotionState
  configUid : String
deriving DecidableEq, Repr

/-- `OrphiqAdapter.get_character_state`: a read-only snapshot of the
adapter's context identity and last trigger state. -/
def getCharacterState (a : Adapter) : CharacterState :=
  { characterName := a.context.characterName
    modelName := a.context.modelName
    currentExpression := a.currentExpression
    currentMotion := a.currentMotion
    configUid := a.context.confUid }

/-- One output unit yielded by the agent engine inside
`OrphiqAdapter.generate_text` (`SentenceOutput`, `AudioOutput`, or any other
type, which the adapter only logs and skips). -/
inductive AgentOut where
  | sentence (text : String)
  | audio (transcript : String)
  | unknownOut
deriving DecidableEq, Repr

/-- Oracle for one run of `self.context.agent_engine.chat(batch_input)`: the
outputs it yields, in order, and `failure = some m` when the call (or the
iteration) raises with message `m` after those outputs. -/
structure AgentRun where
  outputs : List AgentOut
  failure : Option String
deriving DecidableEq, Repr

/-- The text chunks `OrphiqAdapter.generate_text` yields for a list of agent
outputs: `SentenceOutput.display_text.text`, `AudioOutput.transcript`, and
nothing for an unknown output type (`orphiq_adapter.py` lines 60-66). -/
def generateTextChunks : List AgentOut → List String
  | [] => []
  | AgentOut.sentence t :: rest => t :: generateTextChunks rest
  | AgentOut.audio t :: rest => t :: generateTextChunks rest
  | AgentOut.unknownOut :: rest => generateTextChunks rest

/-- `OrphiqAdapter.generate_text` (`orphiq_adapter.py` lines 33-70): the
chunks it yields and the exception it propagates. The `except` clause logs
and then re-raises (`raise`), so a failure of the agent engine leaves the
adapter as a raised exception, not as a result record. -/
def generateText (run : AgentRun) : List String × Option String :=
  (generateTextChunks run.outputs, run.failure)

/-- One chat group (`ChatGroup` of `chat_group.py`): id, owner, members. -/
structure ChatGroup where
  groupId : String
  ownerUid : String
  members : List String
deriving DecidableEq, Repr

/-- State of the `ChatGroupManager`: the reverse map client → group id
(empty string meaning "no group") and the group table. -/
structure ChatGroupManager where
  clientGroupMap : String → Option String
  groups : String → Option ChatGroup

/-- Modelled from the spec: `chat_group.py` (`ChatGroupManager.get_client_group`)
is not among the repository files under src/; the spec (§3 ChatGroup) says
membership is "tracked by a reverse map client→group-id, empty string meaning
no group", so the lookup resolves the client's group id through that map and
returns no group for a missing or empty entry. -/
def getClientGroup (g : ChatGroupManager) (uid : String) : Option ChatGroup :=
  match g.clientGroupMap uid with
  | none => none
  | some gid => if gid = "" then none else g.groups gid

/-- The per-client maps and counters of `WebSocketHandler.__init__` that the
embedded handlers touch, plus the ghost adapter-stamp counter. -/
structure HandlerState where
  clientConnections : String → Bool
  clientContexts : String → Option Ctx
  receivedDataBuffers : String → Option (List Int)
  clientAdapters : String → Option Adapter
  backendModes : String → Option String
  chatGroupManager : ChatGroupManager
  nextStamp : Nat

/-- Point update of a uid-keyed map (`d[k] = v` / `d.pop(k, None)`). -/
def upd {α : Type} (m : String → Option α) (k : String) (v : Option α) :
    String → Option α :=
  fun q => if q = k then v else m q

/-- The backend modes `_handle_set_backend_mode` accepts
(`websocket_handler.py` line 732). -/
def validBackendModes : List String := ["orphiq", "external-api", "autonomous"]

/-- `WebSocketHandler._get_adapter` (`websocket_handler.py` lines 578-602):
return the cached adapter, else create an `OrphiqAdapter` when the client's
mode (default `"orphiq"`) is `"orphiq"`, else raise `ValueError`. A missing
context also raises `ValueError`. A fresh instance takes the current ghost
stamp. -/
def getAdapter (st : HandlerState) (uid : String) :
    Except String (HandlerState × Adapter) :=
  match st.clientAdapters uid with
  | some a => Except.ok (st, a)
  | none =>
    match st.clientContexts uid with
    | none => Except.error ("No context found for client " ++ uid)
    | some ctx =>
      let mode := (st.backendModes uid).getD "orphiq"
      if mode = "orphiq" then
        let a : Adapter :=
          { context := ctx, createdAt := st.nextStamp,
            currentExpression := none, currentMotion := none }
        Except.ok
          ({ st with
              clientAdapters := upd st.clientAdapters uid (some a),
              nextStamp := st.nextStamp + 1 }, a)
      else
        Except.error ("Backend mode \'" ++ mode ++ "\' not yet implemented")

/-- `WebSocketHandler._handle_set_backend_mode` (`websocket_handler.py`
lines 726-757): a mode outside `validBackendModes` is answered with an error
envelope and nothing changes; otherwise the cached adapter is popped, the
mode recorded, and `_get_adapter` is called — on success a `backend-mode-set`
ack is sent, on `ValueError` the `except` clause sends an error envelope
(with the pop and the mode record left in place). -/
def handleSetBackendMode (st : HandlerState) (uid : String)
    (modeField : Option String) : HandlerState × List Send :=
  let mode := modeField.getD "orphiq"
  if mode ∈ validBackendModes then
    let st1 := { st with
      clientAdapters := upd st.clientAdapters uid none,
      backendModes := upd st.backendModes uid (some mode) }
    match getAdapter st1 uid with
    | Except.ok (st2, _) => (st2, [(uid, Envelope.backendModeSet mode)])
    | Except.error e => (st1, [(uid, Envelope.error e)])
  else
    (st, [(uid, Envelope.error
      ("Invalid backend mode: " ++ mode ++
       ". Must be one of: orphiq, external-api, autonomous"))])

/-- `WebSocketHandler._handle_get_backend_mode` (`websocket_handler.py`
lines 759-772): reply with the recorded mode, default `"orphiq"`. -/
def handleGetBackendMode (st : HandlerState) (uid : String) :
    HandlerState × List Send :=
  (st, [(uid, Envelope.backendMode ((st.backendModes uid).getD "orphiq"))])

/-- `WebSocketHandler._handle_expression_command` (`websocket_handler.py`
lines 604-637): missing `expression_id` → error envelope; otherwise get the
adapter (error envelope on `ValueError`), call `trigger_expression` (which
never raises), store the mutated adapter back (Python aliasing through the
`client_adapters` dict) and send an `expression-ack` carrying the result
record. `duration` and `priority` default to 0 as in `data.get`. -/
def handleExpressionCommand (st : HandlerState) (uid : String)
    (expressionId : Option Int) (duration : Option Int) (priority : Option Int)
    (connPresent : Bool) (sendErr : Option String) : HandlerState × List Send :=
  match expressionId with
  | none => (st, [(uid, Envelope.error "expression_id is required")])
  | some e =>
    match getAdapter st uid with
    | Except.error m => (st, [(uid, Envelope.error m)])
    | Except.ok (st1, a) =>
      let r := triggerExpression a e (some (duration.getD 0)) (priority.getD 0)
        connPresent sendErr
      ({ st1 with clientAdapters := upd st1.clientAdapters uid (some r.1) },
       r.2.2.map (fun env => (uid, env)) ++ [(uid, Envelope.expressionAck e r.2.1)])

/-- `WebSocketHandler._handle_motion_command` (`websocket_handler.py`
lines 639-680): missing `motion_group` or `motion_index` → error envelope;
otherwise adapter lookup, `trigger_motion`, and a `motion-ack`. -/
def handleMotionCommand (st : HandlerState) (uid : String)
    (motionGroup : Option String) (motionIndex : Option Int) (loop : Option Bool)
    (priority : Option Int) (connPresent : Bool) (sendErr : Option String) :
    HandlerState × List Send :=
  match motionGroup, motionIndex with
  | some g, some i =>
    (match getAdapter st uid with
     | Except.error m => (st, [(uid, Envelope.error m)])
     | Except.ok (st1, a) =>
       let r := triggerMotion a g i (loop.getD false) (priority.getD 0)
         connPresent sendErr
       ({ st1 with clientAdapters := upd st1.clientAdapters uid (some r.1) },
        r.2.2.map (fun env => (uid, env)) ++ [(uid, Envelope.motionAck g i r.2.1)]))
  | _, _ =>
    (st, [(uid, Envelope.error "motion_group and motion_index are required")])

/-- `WebSocketHandler._handle_text_generation_request` (`websocket_handler.py`
lines 682-724): a missing or empty prompt → error envelope; otherwise stream
one `text-generation-chunk` per chunk the adapter yields, accumulating
`full_text`, then either the terminal `text-generation-response` or — when
the generator raises — the `except` clause's error envelope after the chunks
already streamed. -/
def handleTextGenerationRequest (st : HandlerState) (uid : String)
    (prompt : Option String) (run : AgentRun) : HandlerState × List Send :=
  if prompt.getD "" = "" then
    (st, [(uid, Envelope.error "prompt is required")])
  else
    match getAdapter st uid with
    | Except.error m => (st, [(uid, Envelope.error m)])
    | Except.ok (st1, _) =>
      let chunks := (generateText run).1
      let chunkSends := chunks.map
        (fun c => (uid, Envelope.textGenerationChunk c false))
      match (generateText run).2 with
      | none =>
        (st1, chunkSends ++
          [(uid, Envelope.textGenerationResponse (String.join chunks) true)])
      | some e => (st1, chunkSends ++ [(uid, Envelope.error e)])

/-- Which interrupt path `_handle_interrupt` delegates to: the group path
(`handle_group_interrupt` on the whole group) or the individual path
(`handle_individual_interrupt` on one client), each with the heard-response
text it passes along. -/
inductive InterruptAction where
  | group (groupId : String) (heardResponse : String)
  | individual (clientUid : String) (heardResponse : String)
deriving DecidableEq, Repr

/-- `WebSocketHandler._handle_interrupt` (`websocket_handler.py` lines
352-375): `heard_response = data.get("text", "")`; an unregistered client
raises `KeyError` at the context lookup; a group with more than one member
takes the group path, anything else the individual path. The two
`conversation_handler` collaborators are outside src/, so the embedding
reports which of them is called and with what arguments. -/
def handleInterrupt (st : HandlerState) (uid : String) (text : Option String) :
    Except String InterruptAction :=
  let heard := text.getD ""
  match st.clientContexts uid with
  | none => Except.error ("\'" ++ uid ++ "\'")
  | some _ =>
    match getClientGroup st.chatGroupManager uid with
    | some g =>
      if 1 < g.members.length then Except.ok (InterruptAction.group g.groupId heard)
      else Except.ok (InterruptAction.individual uid heard)
    | none => Except.ok (InterruptAction.individual uid heard)

/-- `WebSocketHandler._handle_audio_data` (`websocket_handler.py` lines
461-475): the logging line indexes `received_data_buffers[client_uid]`
(KeyError for an unregistered client); a non-empty `audio` list is appended
to the buffer. The third component is the raised exception, if any. -/
def handleAudioData (st : HandlerState) (uid : String) (audio : List Int) :
    HandlerState × List Send × Option String :=
  match st.receivedDataBuffers uid with
  | none => (st, [], some ("\'" ++ uid ++ "\'"))
  | some buf =>
    if audio = [] then (st, [], none)
    else
      ({ st with
          receivedDataBuffers := upd st.receivedDataBuffers uid (some (buf ++ audio)) },
       [], none)

/-- The byte string `b"<|PAUSE|>"` the VAD generator yields as a pause
marker. -/
def pauseMarker : List Nat := [60, 124, 80, 65, 85, 83, 69, 124, 62]

/-- The byte string `b"<|RESUME|>"` the VAD generator yields as a resume
marker. -/
def resumeMarker : List Nat := [60, 124, 82, 69, 83, 85, 77, 69, 124, 62]

/-- One little-endian int16 sample from two bytes, as
`np.frombuffer(audio_bytes, dtype=np.int16)` reads it. -/
def int16OfBytes (b0 b1 : Nat) : Int :=
  let v := b0 + 256 * b1
  if v < 32768 then (v : Int) else (v : Int) - 65536

/-- `np.frombuffer(bytes, dtype=np.int16)`: decode consecutive byte pairs;
an odd byte count raises `ValueError` (modelled as `none`). -/
def decodeInt16 : List Nat → Option (List Int)
  | [] => some []
  | [_] => none
  | b0 :: b1 :: rest => (decodeInt16 rest).map (fun s => int16OfBytes b0 b1 :: s)

/-- The event loop inside `_handle_raw_audio_data` (`websocket_handler.py`
lines 486-504) over the byte chunks yielded by
`context.vad_engine.detect_speech(chunk)`: a pause marker sends
`{type: "control", text: "interrupt"}`; a resume marker does nothing; a
chunk longer than 1024 bytes is decoded as int16 samples, appended to the
client's buffer and followed by `{type: "control", text: "mic-audio-end"}`;
anything else is skipped. A raise (odd byte count, or missing buffer)
aborts the loop keeping the mutations made so far. -/
def processVadEvents (st : HandlerState) (uid : String) :
    List (List Nat) → HandlerState × List Send × Option String
  | [] => (st, [], none)
  | e :: rest =>
    if e = pauseMarker then
      let r := processVadEvents st uid rest
      (r.1, (uid, Envelope.control "interrupt") :: r.2.1, r.2.2)
    else if e = resumeMarker then
      processVadEvents st uid rest
    else if 1024 < e.length then
      match decodeInt16 e with
      | none => (st, [], some "buffer size must be a multiple of element size in all dimensions")
      | some samples =>
        match st.receivedDataBuffers uid with
        | none => (st, [], some ("\'" ++ uid ++ "\'"))
        | some buf =>
          let st1 := { st with
            receivedDataBuffers := upd st.receivedDataBuffers uid (some (buf ++ samples)) }
          let r := processVadEvents st1 uid rest
          (r.1, (uid, Envelope.control "mic-audio-end") :: r.2.1, r.2.2)
    else
      processVadEvents st uid rest

/-- `WebSocketHandler._handle_raw_audio_data` (`websocket_handler.py` lines
477-504): the context lookup raises for an unregistered client; an empty
chunk is ignored; otherwise the VAD event loop runs. `events` is the oracle
for the byte chunks `detect_speech(chunk)` yields. -/
def handleRawAudioData (st : HandlerState) (uid : String) (chunk : List Nat)
    (events : List (List Nat)) : HandlerState × List Send × Option String :=
  match st.clientContexts uid with
  | none => (st, [], some ("\'" ++ uid ++ "\'"))
  | some _ =>
    if chunk = [] then (st, [], none)
    else processVadEvents st uid events

/-- An inbound message for one of the handlers embedded above, with its
payload fields and the oracles for the collaborators the handler consults
(transport send outcome, agent run, VAD events). The discriminator tag of
each constructor is `HMsg.tag`. -/
inductive HMsg where
  | setBackendMode (mode : Option String)
  | getBackendMode
  | expressionCommand (expressionId : Option Int) (duration : Option Int)
      (priority : Option Int) (connPresent : Bool) (sendErr : Option String)
  | motionCommand (motionGroup : Option String) (motionIndex : Option Int)
      (loop : Option Bool) (priority : Option Int) (connPresent : Bool)
      (sendErr : Option String)
  | textGenerationRequest (prompt : Option String) (run : AgentRun)
  | interruptSignal (text : Option String)
  | micAudioData (audio : List Int)
  | rawAudioData (chunk : List Nat) (events : List (List Nat))

/-- The `type` tag of an embedded message, as in `_init_message_handlers`. -/
def HMsg.tag : HMsg → String
  | .setBackendMode _ => "set-backend-mode"
  | .getBackendMode => "get-backend-mode"
  | .expressionCommand _ _ _ _ _ => "expression-command"
  | .motionCommand _ _ _ _ _ _ => "motion-command"
  | .textGenerationRequest _ _ => "text-generation-request"
  | .interruptSignal _ => "interrupt-signal"
  | .micAudioData _ => "mic-audio-data"
  | .rawAudioData _ _ => "raw-audio-data"

/-- Dispatch one embedded message to its handler, returning the new state,
the sends, and the exception the handler raised (caught later by the
receive loop). The interrupt handler's effects live in the
`conversation_handler` collaborators outside src/, so its embedded effect on
the maps modelled here is none; its dispatch decision is `handleInterrupt`. -/
def hstep (st : HandlerState) (uid : String) :
    HMsg → HandlerState × List Send × Option String
  | .setBackendMode m =>
    let r := handleSetBackendMode st uid m
    (r.1, r.2, none)
  | .getBackendMode =>
    let r := handleGetBackendMode st uid
    (r.1, r.2, none)
  | .expressionCommand e d p c s =>
    let r := handleExpressionCommand st uid e d p c s
    (r.1, r.2, none)
  | .motionCommand g i l p c s =>
    let r := handleMotionCommand st uid g i l p c s
    (r.1, r.2, none)
  | .textGenerationRequest pr run =>
    let r := handleTextGenerationRequest st uid pr run
    (r.1, r.2, none)
  | .interruptSignal t =>
    (match handleInterrupt st uid t with
     | Except.ok _ => (st, [], none)
     | Except.error e => (st, [], some e))
  | .micAudioData a => handleAudioData st uid a
  | .rawAudioData c ev => handleRawAudioData st uid c ev

/-- The 22 keys of the `_init_message_handlers` dict (`websocket_handler.py`
lines 81-107): exactly the tags for which `_route_message` finds a handler. -/
def messageHandlerTags : List String :=
  ["add-client-to-group", "remove-client-from-group", "request-group-info",
   "fetch-history-list", "fetch-and-set-history", "create-new-history",
   "delete-history", "interrupt-signal", "mic-audio-data", "mic-audio-end",
   "raw-audio-data", "text-input", "ai-speak-signal", "fetch-configs",
   "switch-config", "fetch-backgrounds", "audio-play-start",
   "expression-command", "motion-command", "text-generation-request",
   "set-backend-mode", "get-backend-mode"]

/-- A parsed inbound JSON object as `_route_message` sees it: a payload for
one of the handlers embedded here, any other `type` string (a tag handled by
one of the remaining handlers, or an unknown tag), or no `type` field. -/
inductive Inbound where
  | known (m : HMsg)
  | other (tag : String)
  | noType

/-- The combined behaviour of the handlers not embedded here (group,
history, conversation-trigger, config, background and audio-play-start
handlers): theorems quantify over every such behaviour. -/
def ExtDispatch : Type :=
  String → HandlerState → String → HandlerState × List Send × Option String

/-- `WebSocketHandler._route_message` (`websocket_handler.py` lines 240-261):
no `type` field → log and return; a tag with a registered handler → invoke
it; any other tag → log ("Unknown message type") and return, touching
nothing and sending nothing. -/
def routeMessage (ext : ExtDispatch) (st : HandlerState) (uid : String) :
    Inbound → HandlerState × List Send × Option String
  | .noType => (st, [], none)
  | .known m => hstep st uid m
  | .other t => if t ∈ messageHandlerTags then ext t st uid else (st, [], none)

/-- One iteration of the receive loop in `handle_websocket_communication`
(`websocket_handler.py` lines 216-231): route the message; a handler
exception is caught, answered with an error envelope, and the loop
continues (`continue`). The boolean is whether the loop keeps running —
only a transport-level `WebSocketDisconnect` ends it, which no routed
message raises. -/
def loopStep (ext : ExtDispatch) (st : HandlerState) (uid : String)
    (inb : Inbound) : HandlerState × List Send × Bool :=
  match routeMessage ext st uid inb with
  | (st1, sends, none) => (st1, sends, true)
  | (st1, sends, some e) => (st1, sends ++ [(uid, Envelope.error e)], true)

/-- Run a sequence of embedded messages (each with its sender uid) through
`hstep`, keeping only the final state. -/
def runTrace (st : HandlerState) : List (String × HMsg) → HandlerState
  | [] => st
  | (uid, m) :: rest => runTrace (hstep st uid m).1 rest

/-- All adapter instances held for `uid` were created at stamp `n` or later,
and the creation counter is at least `n` (so every instance created from now
on is also at `n` or later). -/
def AdapterFreshFrom (uid : String) (n : Nat) (st : HandlerState) : Prop :=
  (∀ a, st.clientAdapters uid = some a → n ≤ a.createdAt) ∧ n ≤ st.nextStamp

/-- Claim-side description (spec §4.3 wording) of the control envelopes one
VAD event produces: a pause marker yields the interrupt control signal, a
resume marker nothing, a speech segment above the segmentation threshold the
synthetic end-of-utterance signal. -/
def vadEventSends (uid : String) (e : List Nat) : List Send :=
  if e = pauseMarker then [(uid, Envelope.control "interrupt")]
  else if e = resumeMarker then []
  else if 1024 < e.length then [(uid, Envelope.control "mic-audio-end")]
  else []

/-- Claim-side description of the samples one VAD event appends to the
buffer: only a speech segment above the segmentation threshold contributes,
with its decoded int16 samples. -/
def vadEventSamples (e : List Nat) : List Int :=
  if e = pauseMarker then []
  else if e = resumeMarker then []
  else if 1024 < e.length then (decodeInt16 e).getD []
  else []

/-- A sample per-session context for concrete evaluations. -/
def sampleCtx : Ctx :=
  { confUid := "conf-1", characterName := "Mao", humanName := "Human",
    avatar := "mao.png", modelName := "mao_pro" }

/-- An empty group manager: every client is in the "no group" state. -/
def emptyGroups : ChatGroupManager :=
  { clientGroupMap := fun _ => some "", groups := fun _ => none }

/-- A handler state with one registered client `"c"` (connection, context
and empty audio buffer present; no adapter, no recorded mode). -/
def st0 : HandlerState :=
  { clientConnections := fun q => q = "c"
    clientContexts := fun q => if q = "c" then some sampleCtx else none
    receivedDataBuffers := fun q => if q = "c" then some [] else none
    clientAdapters := fun _ => none
    backendModes := fun _ => none
    chatGroupManager := emptyGroups
    nextStamp := 0 }

/-- An adapter instance created before any backend-mode switch, for the
stale-state counterexamples. -/
def adapter0 : Adapter :=
  { context := sampleCtx, createdAt := 0,
    currentExpression := none, currentMotion := none }

/-- `st0` after `"c"` has mode `"orphiq"` recorded and `adapter0` cached. -/
def stA : HandlerState :=
  { st0 with
      clientAdapters := upd st0.clientAdapters "c" (some adapter0),
      backendModes := upd st0.backendModes "c" (some "orphiq"),
      nextStamp := 1 }

/-- A group manager with one two-member group `"g1"` owned by `"c"` with
members `"c"` and `"d"`. -/
def groupsCD : ChatGroupManager :=
  { clientGroupMap := fun q => if q = "c" ∨ q = "d" then some "g1" else some ""
    groups := fun q =>
      if q = "g1" then some { groupId := "g1", ownerUid := "c", members := ["c", "d"] }
      else none }

/-- `st0` with `"c"` and `"d"` sharing the two-member group `"g1"`. -/
def stG : HandlerState :=
  { st0 with
      clientContexts := fun q => if q = "c" ∨ q = "d" then some sampleCtx else none,
      chatGroupManager := groupsCD }

/-- A no-op behaviour of the non-embedded handlers, used to instantiate
`ExtDispatch` in concrete evaluations. -/
def extNull : ExtDispatch := fun _ st _ => (st, [], none)

/-- `st` with the audio sample buffer of `uid` set to `b`. -/
def setBuffer (st : HandlerState) (uid : String) (b : List Int) : HandlerState :=
  { st with receivedDataBuffers := upd st.receivedDataBuffers uid (some b) }

/-- A speech segment above the 1024-byte segmentation threshold (1026 bytes,
an even count, as int16 PCM always is). -/
def bigSeg : List Nat := List.replicate 1026 7

/-- A sample VAD event sequence: pause, resume, then a large speech
segment. -/
def wEvents : List (List Nat) := [pauseMarker, resumeMarker, bigSeg]

theorem upd_self {α : Type} (m : String → Option α) (k : String) (v : Option α) :
    upd m k v k = v := by
  simp [upd]

theorem upd_ne {α : Type} (m : String → Option α) (k q : String) (v : Option α)
    (h : q ≠ k) : upd m k v q = m q := by
  simp [upd, h]

/-- C4: an inbound message whose type tag has no registered handler is
dropped by `_route_message`: no handler runs (the result is the same for
every behaviour of the non-embedded handlers), no envelope is sent to any
client, the handler state is untouched, no exception is raised, and the
receive loop continues. -/
theorem unknown_tag_is_dropped (ext : ExtDispatch) (st : HandlerState)
    (uid tag : String) (h : tag ∉ messageHandlerTags) :
    routeMessage ext st uid (Inbound.other tag) = (st, [], none) ∧
    loopStep ext st uid (Inbound.other tag) = (st, [], true) := by
  have hr : routeMessage ext st uid (Inbound.other tag) = (st, [], none) := by
    simp [routeMessage, h]
  exact ⟨hr, by simp [loopStep, hr]⟩

/-- Witness for C4 at the spec's scenario tag `"foo-bar"`. -/
theorem unknown_tag_is_dropped_witness :
    "foo-bar" ∉ messageHandlerTags ∧
    routeMessage extNull st0 "c" (Inbound.other "foo-bar") = (st0, [], none) :=
  ⟨by decide, (unknown_tag_is_dropped extNull st0 "c" "foo-bar" (by decide)).1⟩

/-- C5: for a registered client, `_handle_interrupt` takes the group path,
with `heard_response = data.get("text", "")`, exactly when the client's
group has more than one member, and the individual path for that client
(same heard response) when the group has at most one member or the client
has no group. -/
theorem interrupt_dispatch (st : HandlerState) (uid : String) (ctx : Ctx)
    (text : Option String) (hCtx : st.clientContexts uid = some ctx) :
    (∀ g, getClientGroup st.chatGroupManager uid = some g →
      1 < g.members.length →
      handleInterrupt st uid text =
        Except.ok (InterruptAction.group g.groupId (text.getD ""))) ∧
    (∀ g, getClientGroup st.chatGroupManager uid = some g →
      g.members.length ≤ 1 →
      handleInterrupt st uid text =
        Except.ok (InterruptAction.individual uid (text.getD ""))) ∧
    (getClientGroup st.chatGroupManager uid = none →
      handleInterrupt st uid text =
        Except.ok (InterruptAction.individual uid (text.getD ""))) := by
  refine ⟨?_, ?_, ?_⟩
  · intro g hg hlen
    simp [handleInterrupt, hCtx, hg, hlen]
  · intro g hg hlen
    simp [handleInterrupt, hCtx, hg, Nat.not_lt.mpr hlen]
  · intro hg
    simp [handleInterrupt, hCtx, hg]

/-- Witness for C5: in `stG` the two-member group `"g1"` makes `"c"` take
the group path with the message's text as heard response. -/
theorem interrupt_dispatch_witness :
    stG.clientContexts "c" = some sampleCtx ∧
    handleInterrupt stG "c" (some "ok") =
      Except.ok (InterruptAction.group "g1" "ok") := by
  refine ⟨by decide, ?_⟩
  exact (interrupt_dispatch stG "c" sampleCtx (some "ok") (by decide)).1
    { groupId := "g1", ownerUid := "c", members := ["c", "d"] } (by decide) (by decide)

/-- Counterexample for C2: at the concrete registered client `"c"` of
`st0`, the mode `"bridge"` — a member of the claim's accepted set — is
answered with an error envelope, no mode is recorded and no adapter is
created, refuting "every mode inside {bridge, external-api, autonomous} is
accepted". -/
theorem setBackendMode_bridge_rejected :
    (handleSetBackendMode st0 "c" (some "bridge")).2 =
      [("c", Envelope.error
        "Invalid backend mode: bridge. Must be one of: orphiq, external-api, autonomous")] ∧
    (handleSetBackendMode st0 "c" (some "bridge")).1.backendModes "c" = none ∧
    (handleSetBackendMode st0 "c" (some "bridge")).1.clientAdapters "c" = none := by
  decide

/-- C2 (amended): for a registered client, a mode outside
{orphiq, external-api, autonomous} gets an error envelope and changes
nothing; mode `"orphiq"` is accepted — the adapter is replaced by a freshly
created instance and a `backend-mode-set` ack carrying the mode is sent;
modes `"external-api"` and `"autonomous"` pass validation, discard the
cached adapter and record the mode, but adapter creation then raises
`ValueError`, so an error envelope is sent instead of an ack. -/
theorem setBackendMode_dispatch (st : HandlerState) (uid : String) (ctx : Ctx)
    (mode : String) (hCtx : st.clientContexts uid = some ctx) :
    (mode ∉ validBackendModes →
      handleSetBackendMode st uid (some mode) =
        (st, [(uid, Envelope.error
          ("Invalid backend mode: " ++ mode ++
           ". Must be one of: orphiq, external-api, autonomous"))])) ∧
    (mode = "orphiq" →
      ∃ a, (handleSetBackendMode st uid (some mode)).1.clientAdapters uid = some a ∧
        a.createdAt = st.nextStamp ∧
        (handleSetBackendMode st uid (some mode)).2 =
          [(uid, Envelope.backendModeSet mode)]) ∧
    ((mode = "external-api" ∨ mode = "autonomous") →
      (handleSetBackendMode st uid (some mode)).1.clientAdapters uid = none ∧
      (handleSetBackendMode st uid (some mode)).1.backendModes uid = some mode ∧
      (handleSetBackendMode st uid (some mode)).2 =
        [(uid, Envelope.error
          ("Backend mode \'" ++ mode ++ "\' not yet implemented"))]) := by
  refine ⟨?_, ?_, ?_⟩
  · intro h
    simp [handleSetBackendMode, h]
  · intro h
    subst h
    refine ⟨{ context := ctx, createdAt := st.nextStamp,
              currentExpression := none, currentMotion := none }, ?_, rfl, ?_⟩ <;>
      simp [handleSetBackendMode, getAdapter, upd, hCtx, validBackendModes]
  · intro h
    have hne : mode ≠ "orphiq" := by
      rcases h with h | h <;> simp [h]
    have hmem : mode ∈ validBackendModes := by
      rcases h with h | h <;> simp [h, validBackendModes]
    refine ⟨?_, ?_, ?_⟩ <;>
      simp [handleSetBackendMode, getAdapter, upd, hCtx, hmem, hne]

/-- Witness for C2 (amended) at `st0`, mode `"orphiq"`. -/
theorem setBackendMode_dispatch_witness :
    st0.clientContexts "c" = some sampleCtx ∧
    (∃ a, (handleSetBackendMode st0 "c" (some "orphiq")).1.clientAdapters "c" = some a ∧
      a.createdAt = st0.nextStamp ∧
      (handleSetBackendMode st0 "c" (some "orphiq")).2 =
        [("c", Envelope.backendModeSet "orphiq")]) := by
  refine ⟨by decide, ?_⟩
  exact (setBackendMode_dispatch st0 "c" sampleCtx "orphiq" (by decide)).2.1 rfl

/-- Counterexample for C3: client `"c"` of `stA` has recorded mode
`"orphiq"` and cached adapter `adapter0`; handling
`set-backend-mode{mode: "external-api"}` makes adapter creation raise, an
error envelope is sent, but the session state is not what it was before the
message: the recorded mode is now `"external-api"` and the stored adapter is
gone. -/
theorem setBackendMode_failure_mutates_state :
    stA.backendModes "c" = some "orphiq" ∧
    stA.clientAdapters "c" = some adapter0 ∧
    (handleSetBackendMode stA "c" (some "external-api")).2 =
      [("c", Envelope.error "Backend mode \'external-api\' not yet implemented")] ∧
    (handleSetBackendMode stA "c" (some "external-api")).1.backendModes "c" =
      some "external-api" ∧
    (handleSetBackendMode stA "c" (some "external-api")).1.clientAdapters "c" = none := by
  decide

/-- C3 (amended): when adapter creation raises during set-backend-mode
handling for a registered client, an error envelope is sent to the
originating client and the client's context, audio buffer and connection
entry are unchanged; but the recorded backend mode has already been set to
the requested mode and the stored adapter discarded, and neither is rolled
back. -/
theorem setBackendMode_failure_partial_state (st : HandlerState) (uid : String)
    (ctx : Ctx) (mode : String) (hCtx : st.clientContexts uid = some ctx)
    (hMode : mode = "external-api" ∨ mode = "autonomous") :
    (handleSetBackendMode st uid (some mode)).2 =
      [(uid, Envelope.error ("Backend mode \'" ++ mode ++ "\' not yet implemented"))] ∧
    (handleSetBackendMode st uid (some mode)).1.clientContexts = st.clientContexts ∧
    (handleSetBackendMode st uid (some mode)).1.receivedDataBuffers =
      st.receivedDataBuffers ∧
    (handleSetBackendMode st uid (some mode)).1.clientConnections =
      st.clientConnections ∧
    (handleSetBackendMode st uid (some mode)).1.backendModes uid = some mode ∧
    (handleSetBackendMode st uid (some mode)).1.clientAdapters uid = none := by
  have hne : mode ≠ "orphiq" := by
    rcases hMode with h | h <;> simp [h]
  have hmem : mode ∈ validBackendModes := by
    rcases hMode with h | h <;> simp [h, validBackendModes]
  refine ⟨?_, ?_, ?_, ?_, ?_, ?_⟩ <;>
    simp [handleSetBackendMode, getAdapter, upd, hCtx, hmem, hne]

/-- Witness for C3 (amended) at `stA`, mode `"external-api"`. -/
theorem setBackendMode_failure_partial_state_witness :
    stA.clientContexts "c" = some sampleCtx ∧
    (handleSetBackendMode stA "c" (some "external-api")).1.backendModes "c" =
      some "external-api" := by
  refine ⟨by decide, ?_⟩
  exact (setBackendMode_failure_partial_state stA "c" sampleCtx "external-api"
    (by decide) (Or.inl rfl)).2.2.2.2.1

/-- C10: if the websocket notification inside `trigger_expression` or
`trigger_motion` raises, the operation returns a record with status
`"error"` and the adapter's recorded trigger state is unchanged — a
subsequent `get_character_state` returns the same snapshot as before the
failed call, because `_current_expression` / `_current_motion` are assigned
only after the notification succeeds. -/
theorem trigger_failure_preserves_state (a : Adapter) (e : Int) (d : Option Int)
    (p : Int) (g : String) (i : Int) (l : Bool) (m : String) :
    (triggerExpression a e d p true (some m)).1 = a ∧
    ((triggerExpression a e d p true (some m)).2.1).status = "error" ∧
    getCharacterState (triggerExpression a e d p true (some m)).1 =
      getCharacterState a ∧
    (triggerMotion a g i l p true (some m)).1 = a ∧
    ((triggerMotion a g i l p true (some m)).2.1).status = "error" ∧
    getCharacterState (triggerMotion a g i l p true (some m)).1 =
      getCharacterState a := by
  refine ⟨?_, ?_, ?_, ?_, ?_, ?_⟩ <;>
    simp [triggerExpression, triggerMotion, ExprResult.status, MotionResult.status]

/-- Counterexample for C7: `OrphiqAdapter.generate_text` does not report an
internal failure as a structured error outcome — its except clause logs and
then re-raises, so at this concrete failing agent run the failure propagates
out of the adapter as an exception (the `some "boom"` component) after the
chunks already yielded. -/
theorem generateText_propagates_failure :
    (generateText { outputs := [AgentOut.sentence "Hi"], failure := some "boom" }).2 =
      some "boom" := rfl

/-- C7 (amended): `trigger_expression` and `trigger_motion` report every
internal failure as a structured record whose status is `"success"` or
`"error"` and never let an exception escape (their embedding is total into
result records); `get_character_state` is a read-only total snapshot; but
`generate_text` re-raises internal failures, which propagate to the caller
— `_handle_text_generation_request` catches them and converts them into a
terminal client-visible error envelope after the chunks already streamed. -/
theorem adapter_failure_reporting (a : Adapter) (e : Int) (d : Option Int)
    (p : Int) (c : Bool) (s : Option String) (g : String) (i : Int) (l : Bool)
    (st : HandlerState) (uid : String) (ctx : Ctx) (run : AgentRun) (m : String)
    (pr : String)
    (hCtx : st.clientContexts uid = some ctx)
    (hMode : (st.backendModes uid).getD "orphiq" = "orphiq")
    (hpr : pr ≠ "")
    (hFail : run.failure = some m) :
    ((triggerExpression a e d p c s).2.1.status = "success" ∨
     (triggerExpression a e d p c s).2.1.status = "error") ∧
    ((triggerMotion a g i l p c s).2.1.status = "success" ∨
     (triggerMotion a g i l p c s).2.1.status = "error") ∧
    (handleTextGenerationRequest st uid (some pr) run).2.getLast? =
      some (uid, Envelope.error m) := by
  refine ⟨?_, ?_, ?_⟩
  · cases c <;> cases s <;>
      simp [triggerExpression, ExprResult.status]
  · cases c <;> cases s <;>
      simp [triggerMotion, MotionResult.status]
  · cases hA : st.clientAdapters uid with
    | some a0 =>
      simp [handleTextGenerationRequest, getAdapter, hA, hpr, generateText, hFail,
        List.getLast?_concat]
    | none =>
      simp [handleTextGenerationRequest, getAdapter, hA, hCtx, hMode, hpr,
        generateText, hFail, List.getLast?_concat]

/-- Witness for C7 (amended): concrete instantiation at `st0` with a failing
agent run. -/
theorem adapter_failure_reporting_witness :
    st0.clientContexts "c" = some sampleCtx ∧
    (st0.backendModes "c").getD "orphiq" = "orphiq" ∧
    ("hi" : String) ≠ "" ∧
    (AgentRun.mk [AgentOut.sentence "Hello"] (some "boom")).failure = some "boom" ∧
    (handleTextGenerationRequest st0 "c" (some "hi")
        (AgentRun.mk [AgentOut.sentence "Hello"] (some "boom"))).2.getLast? =
      some ("c", Envelope.error "boom") := by
  refine ⟨by decide, by decide, by decide, rfl, ?_⟩
  exact (adapter_failure_reporting adapter0 0 none 0 true none "idle" 0 false
    st0 "c" sampleCtx (AgentRun.mk [AgentOut.sentence "Hello"] (some "boom"))
    "boom" "hi" (by decide) (by decide) (by decide) rfl).2.2

/-- C8: for a registered client in orphiq mode, a `text-generation-request`
with a non-empty prompt and a non-failing generation streams one
`text-generation-chunk` envelope (is_complete = false) per chunk the
adapter yields, in production order, followed by exactly one terminal
`text-generation-response` (is_complete = true) whose text is the
concatenation of all chunks; a missing or empty prompt yields only the error
envelope and no chunks, with the state untouched. -/
theorem textGeneration_stream_shape (st : HandlerState) (uid : String)
    (ctx : Ctx) (run : AgentRun) (pr : String)
    (hCtx : st.clientContexts uid = some ctx)
    (hMode : (st.backendModes uid).getD "orphiq" = "orphiq")
    (hOk : run.failure = none) :
    (pr ≠ "" →
      (handleTextGenerationRequest st uid (some pr) run).2 =
        (generateTextChunks run.outputs).map
          (fun t => (uid, Envelope.textGenerationChunk t false)) ++
        [(uid, Envelope.textGenerationResponse
          (String.join (generateTextChunks run.outputs)) true)]) ∧
    (handleTextGenerationRequest st uid (some "") run).2 =
      [(uid, Envelope.error "prompt is required")] ∧
    (handleTextGenerationRequest st uid none run).2 =
      [(uid, Envelope.error "prompt is required")] ∧
    (handleTextGenerationRequest st uid (some "") run).1 = st ∧
    (handleTextGenerationRequest st uid none run).1 = st := by
  refine ⟨?_, ?_, ?_, ?_, ?_⟩
  · intro hpr
    cases hA : st.clientAdapters uid with
    | some a0 =>
      simp [handleTextGenerationRequest, getAdapter, hA, hpr, generateText, hOk]
    | none =>
      simp [handleTextGenerationRequest, getAdapter, hA, hCtx, hMode, hpr,
        generateText, hOk]
  all_goals simp [handleTextGenerationRequest]

/-- Witness for C8: concrete two-chunk generation at `st0`. -/
theorem textGeneration_stream_shape_witness :
    st0.clientContexts "c" = some sampleCtx ∧
    (handleTextGenerationRequest st0 "c" (some "Say hello")
        (AgentRun.mk [AgentOut.sentence "Hello, ", AgentOut.audio "world!"] none)).2 =
      [("c", Envelope.textGenerationChunk "Hello, " false),
       ("c", Envelope.textGenerationChunk "world!" false),
       ("c", Envelope.textGenerationResponse "Hello, world!" true)] := by
  refine ⟨by decide, ?_⟩
  have h := (textGeneration_stream_shape st0 "c" sampleCtx
    (AgentRun.mk [AgentOut.sentence "Hello, ", AgentOut.audio "world!"] none)
    "Say hello" (by decide) (by decide) rfl).1 (by decide)
  simpa [generateTextChunks, String.join] using h

/-- C9: handling `expression-command{expression_id: e, duration: 0}` for a
registered client (in orphiq mode, with the notification delivered) leaves
the recorded backend mode untouched — a subsequent `get-backend-mode` sends
the same reply as before — and the adapter instance held afterwards answers
`get_character_state` with `current_expression = e`. -/
theorem expression_command_effect (st : HandlerState) (uid : String) (ctx : Ctx)
    (e : Int) (c : Bool)
    (hCtx : st.clientContexts uid = some ctx)
    (hMode : (st.backendModes uid).getD "orphiq" = "orphiq") :
    (handleExpressionCommand st uid (some e) (some 0) none c none).1.backendModes =
      st.backendModes ∧
    (handleGetBackendMode
        (handleExpressionCommand st uid (some e) (some 0) none c none).1 uid).2 =
      (handleGetBackendMode st uid).2 ∧
    ∃ a, (handleExpressionCommand st uid (some e) (some 0) none c none).1.clientAdapters
        uid = some a ∧
      (getCharacterState a).currentExpression = some e := by
  have hB : (handleExpressionCommand st uid (some e) (some 0) none c none).1.backendModes =
      st.backendModes := by
    cases hA : st.clientAdapters uid with
    | some a0 =>
      cases c <;> simp [handleExpressionCommand, getAdapter, hA, triggerExpression]
    | none =>
      cases c <;>
        simp [handleExpressionCommand, getAdapter, hA, hCtx, hMode, triggerExpression]
  refine ⟨hB, by simp [handleGetBackendMode, hB], ?_⟩
  cases hA : st.clientAdapters uid with
  | some a0 =>
    refine ⟨{ a0 with currentExpression := some e }, ?_, rfl⟩
    cases c <;>
      simp [handleExpressionCommand, getAdapter, hA, triggerExpression, upd]
  | none =>
    refine ⟨{ context := ctx, createdAt := st.nextStamp,
              currentExpression := some e, currentMotion := none }, ?_, rfl⟩
    cases c <;>
      simp [handleExpressionCommand, getAdapter, hA, hCtx, hMode, triggerExpression, upd]

/-- Witness for C9: the spec's scenario `expression-command{expression_id: 3,
duration: 0}` at `st0`. -/
theorem expression_command_effect_witness :
    st0.clientContexts "c" = some sampleCtx ∧
    (∃ a, (handleExpressionCommand st0 "c" (some 3) (some 0) none true none).1.clientAdapters
        "c" = some a ∧
      (getCharacterState a).currentExpression = some 3) := by
  refine ⟨by decide, ?_⟩
  exact (expression_command_effect st0 "c" sampleCtx 3 true (by decide) (by decide)).2.2

theorem upd_eq_of_lookup {α : Type} (m : String → Option α) (k : String)
    (v : Option α) (h : m k = v) : upd m k v = m := by
  funext q
  by_cases hq : q = k
  · subst hq; simp [upd, h]
  · simp [upd, hq]

theorem upd_upd {α : Type} (m : String → Option α) (k : String)
    (v w : Option α) : upd (upd m k v) k w = upd m k w := by
  funext q
  by_cases hq : q = k <;> simp [upd, hq]

theorem decodeInt16_even :
    ∀ (l : List Nat), l.length % 2 = 0 → ∃ s, decodeInt16 l = some s
  | [], _ => ⟨[], rfl⟩
  | [_], h => by simp at h
  | b0 :: b1 :: rest, h => by
    have h2 : rest.length % 2 = 0 := by
      simp only [List.length_cons] at h
      omega
    obtain ⟨s, hs⟩ := decodeInt16_even rest h2
    exact ⟨int16OfBytes b0 b1 :: s, by simp [decodeInt16, hs]⟩

theorem setBuffer_lookup (st : HandlerState) (uid : String) (b : List Int) :
    (setBuffer st uid b).receivedDataBuffers uid = some b := by
  simp [setBuffer, upd]

theorem processVadEvents_spec (uid : String) :
    ∀ (events : List (List Nat)) (st : HandlerState) (buf : List Int),
      st.receivedDataBuffers uid = some buf →
      (∀ e ∈ events, 1024 < e.length → e.length % 2 = 0) →
      processVadEvents st uid events =
        (setBuffer st uid (buf ++ (events.map vadEventSamples).flatten),
         (events.map (vadEventSends uid)).flatten, none)
  | [], st, buf, hBuf, _ => by
    simp [processVadEvents, vadEventSamples, vadEventSends, setBuffer,
      upd_eq_of_lookup st.receivedDataBuffers uid (some buf) hBuf]
  | e :: rest, st, buf, hBuf, hWF => by
    have hWFr : ∀ x ∈ rest, 1024 < x.length → x.length % 2 = 0 :=
      fun x hx => hWF x (List.mem_cons_of_mem e hx)
    by_cases hp : e = pauseMarker
    · have ih := processVadEvents_spec uid rest st buf hBuf hWFr
      simp [processVadEvents, hp, ih, vadEventSamples, vadEventSends, pauseMarker]
    · by_cases hr : e = resumeMarker
      · have ih := processVadEvents_spec uid rest st buf hBuf hWFr
        simp [processVadEvents, hp, hr, ih, vadEventSamples, vadEventSends,
          resumeMarker, pauseMarker]
      · by_cases hbig : 1024 < e.length
        · obtain ⟨samples, hdec⟩ :=
            decodeInt16_even e (hWF e (List.mem_cons_self e rest) hbig)
          have ih := processVadEvents_spec uid rest (setBuffer st uid (buf ++ samples))
            (buf ++ samples) (setBuffer_lookup st uid (buf ++ samples)) hWFr
          have hsets : setBuffer (setBuffer st uid (buf ++ samples)) uid
              (buf ++ samples ++ (rest.map vadEventSamples).flatten) =
              setBuffer st uid (buf ++ ((e :: rest).map vadEventSamples).flatten) := by
            simp only [setBuffer, upd_upd]
            have : buf ++ samples ++ (rest.map vadEventSamples).flatten =
                buf ++ ((e :: rest).map vadEventSamples).flatten := by
              simp [vadEventSamples, hp, hr, hbig, hdec, List.append_assoc]
            rw [this]
          have hstep : processVadEvents st uid (e :: rest) =
              ((processVadEvents (setBuffer st uid (buf ++ samples)) uid rest).1,
               (uid, Envelope.control "mic-audio-end") ::
                 (processVadEvents (setBuffer st uid (buf ++ samples)) uid rest).2.1,
               (processVadEvents (setBuffer st uid (buf ++ samples)) uid rest).2.2) := by
            simp [processVadEvents, hp, hr, hbig, hdec, hBuf, setBuffer]
          rw [hstep, ih]
          simp only [hsets]
          simp [vadEventSends, hp, hr, hbig]
        · have ih := processVadEvents_spec uid rest st buf hBuf hWFr
          simp [processVadEvents, hp, hr, hbig, ih, vadEventSamples, vadEventSends]

/-- C6: for a registered client sending a non-empty raw-audio chunk whose
VAD events are well-formed PCM (speech segments above the threshold have an
even byte count), the handler consumes the events in order: a pause marker
sends `{type: "control", text: "interrupt"}` to the sender, a speech segment
longer than 1024 bytes appends its decoded samples to the sender's buffer
(order-preserving) immediately followed by `{type: "control",
text: "mic-audio-end"}`, and a resume marker (or short segment) contributes
no send and no buffer change; no exception is raised. -/
theorem rawAudio_vad_effects (st : HandlerState) (uid : String) (ctx : Ctx)
    (buf : List Int) (chunk : List Nat) (events : List (List Nat))
    (hCtx : st.clientContexts uid = some ctx)
    (hBuf : st.receivedDataBuffers uid = some buf)
    (hChunk : chunk ≠ [])
    (hWF : ∀ e ∈ events, 1024 < e.length → e.length % 2 = 0) :
    handleRawAudioData st uid chunk events =
      (setBuffer st uid (buf ++ (events.map vadEventSamples).flatten),
       (events.map (vadEventSends uid)).flatten, none) := by
  rw [handleRawAudioData, hCtx]
  simp only [hChunk, if_neg hChunk]
  exact processVadEvents_spec uid events st buf hBuf hWF

/-- Witness for C6: pause, resume, then a 1026-byte speech segment at
`st0`; the sends are the interrupt control followed by the mic-audio-end
control, and the buffer receives the decoded segment. -/
theorem rawAudio_vad_effects_witness :
    st0.receivedDataBuffers "c" = some [] ∧
    handleRawAudioData st0 "c" [1, 2] wEvents =
      (setBuffer st0 "c" ([] ++ (wEvents.map vadEventSamples).flatten),
       (wEvents.map (vadEventSends "c")).flatten, none) ∧
    (wEvents.map (vadEventSends "c")).flatten =
      [("c", Envelope.control "interrupt"), ("c", Envelope.control "mic-audio-end")] := by
  have hlenEq : bigSeg.length = 1026 := by
    rw [show bigSeg = List.replicate 1026 7 from rfl, List.length_replicate]
  have hbp : bigSeg ≠ pauseMarker := by
    intro h
    have hl := congrArg List.length h
    rw [hlenEq] at hl
    simp [pauseMarker] at hl
  have hbr : bigSeg ≠ resumeMarker := by
    intro h
    have hl := congrArg List.length h
    rw [hlenEq] at hl
    simp [resumeMarker] at hl
  have hlen : 1024 < bigSeg.length := by
    rw [hlenEq]; norm_num
  refine ⟨by decide, ?_, ?_⟩
  · exact rawAudio_vad_effects st0 "c" sampleCtx [] [1, 2] wEvents (by decide)
      (by decide) (by decide)
      (by
        intro e he hbig
        simp only [wEvents, List.mem_cons, List.mem_singleton] at he
        rcases he with h | h | h | h
        · rw [h] at hbig; simp [pauseMarker] at hbig
        · rw [h] at hbig; simp [resumeMarker] at hbig
        · rw [h, hlenEq]
        · simp at h)
  · have h1 : vadEventSends "c" pauseMarker = [("c", Envelope.control "interrupt")] := by
      simp [vadEventSends]
    have h2 : vadEventSends "c" resumeMarker = [] := by
      simp [vadEventSends, resumeMarker, pauseMarker]
    have h3 : vadEventSends "c" bigSeg = [("c", Envelope.control "mic-audio-end")] := by
      unfold vadEventSends
      rw [if_neg hbp, if_neg hbr, if_pos hlen]
    simp [wEvents, h1, h2, h3]

theorem triggerExpression_createdAt (a : Adapter) (e : Int) (d : Option Int)
    (p : Int) (c : Bool) (s : Option String) :
    (triggerExpression a e d p c s).1.createdAt = a.createdAt := by
  cases c <;> cases s <;> simp [triggerExpression]

theorem triggerMotion_createdAt (a : Adapter) (g : String) (i : Int) (l : Bool)
    (p : Int) (c : Bool) (s : Option String) :
    (triggerMotion a g i l p c s).1.createdAt = a.createdAt := by
  cases c <;> cases s <;> simp [triggerMotion]

/-- `_get_adapter` either returns the cached instance with the state
untouched, or installs a fresh instance stamped with the current counter and
bumps the counter, touching no other field. -/
theorem getAdapter_cases (st : HandlerState) (u : String) (st' : HandlerState)
    (a : Adapter) (h : getAdapter st u = Except.ok (st', a)) :
    (st' = st ∧ st.clientAdapters u = some a) ∨
    (a.createdAt = st.nextStamp ∧ st'.nextStamp = st.nextStamp + 1 ∧
     st'.clientAdapters = upd st.clientAdapters u (some a) ∧
     st'.clientContexts = st.clientContexts ∧
     st'.backendModes = st.backendModes ∧
     st'.receivedDataBuffers = st.receivedDataBuffers ∧
     st'.clientConnections = st.clientConnections ∧
     st'.chatGroupManager = st.chatGroupManager) := by
  unfold getAdapter at h
  cases hA : st.clientAdapters u with
  | some a0 =>
    rw [hA] at h
    simp only [Except.ok.injEq, Prod.mk.injEq] at h
    exact Or.inl ⟨h.1.symm, by simp [hA, h.2]⟩
  | none =>
    rw [hA] at h
    cases hC : st.clientContexts u with
    | none => rw [hC] at h; simp at h
    | some ctx =>
      rw [hC] at h
      by_cases hm : (st.backendModes u).getD "orphiq" = "orphiq"
      · simp only [hm, if_true, Except.ok.injEq, Prod.mk.injEq] at h
        obtain ⟨hst, ha⟩ := h
        subst hst
        refine Or.inr ⟨?_, rfl, ?_, rfl, rfl, rfl, rfl, rfl⟩
        · rw [← ha]
        · rw [← ha]
      · simp only [hm, if_false] at h
        simp at h

theorem freshFrom_getAdapter {uid u : String} {n : Nat} {st st' : HandlerState}
    {a : Adapter} (hF : AdapterFreshFrom uid n st)
    (h : getAdapter st u = Except.ok (st', a)) :
    AdapterFreshFrom uid n st' ∧ (u = uid → n ≤ a.createdAt) := by
  rcases getAdapter_cases st u st' a h with ⟨hst, hA⟩ | hfresh
  · subst hst
    exact ⟨hF, fun hu => hF.1 a (hu ▸ hA)⟩
  · obtain ⟨hstamp, hnext, hmap, -⟩ := hfresh
    have hbound : n ≤ a.createdAt := by rw [hstamp]; exact hF.2
    refine ⟨⟨?_, ?_⟩, fun _ => hbound⟩
    · intro b hb
      rw [hmap] at hb
      by_cases hu : uid = u
      · subst hu
        rw [upd_self] at hb
        cases hb
        exact hbound
      · rw [upd_ne _ _ _ _ hu] at hb
        exact hF.1 b hb
    · rw [hnext]
      exact Nat.le_succ_of_le hF.2

theorem freshFrom_setBackendMode {uid : String} {n : Nat} {st : HandlerState}
    (u : String) (m : Option String) (hF : AdapterFreshFrom uid n st) :
    AdapterFreshFrom uid n (handleSetBackendMode st u m).1 := by
  unfold handleSetBackendMode
  by_cases hv : m.getD "orphiq" ∈ validBackendModes
  · simp only [hv, if_true]
    set st1 : HandlerState := { st with
      clientAdapters := upd st.clientAdapters u none,
      backendModes := upd st.backendModes u (some (m.getD "orphiq")) } with hst1
    have hF1 : AdapterFreshFrom uid n st1 := by
      refine ⟨?_, hF.2⟩
      intro b hb
      by_cases hu : uid = u
      · subst hu
        rw [hst1] at hb
        simp only [upd_self] at hb
        cases hb
      · rw [hst1] at hb
        simp only [upd_ne _ _ _ _ hu] at hb
        exact hF.1 b hb
    cases hga : getAdapter st1 u with
    | ok r =>
      obtain ⟨st2, a⟩ := r
      simp only [hga]
      exact (freshFrom_getAdapter hF1 hga).1
    | error e =>
      simp only [hga]
      exact hF1
  · simp only [hv, if_false]
    exact hF

/-- A valid-mode switch establishes freshness from the switch stamp for the
switched client: the cached adapter is popped first, so every adapter held
from now on postdates the switch. -/
theorem setBackendMode_establishes_fresh (st : HandlerState) (uid : String)
    (m : Option String) (hv : m.getD "orphiq" ∈ validBackendModes) :
    AdapterFreshFrom uid st.nextStamp (handleSetBackendMode st uid m).1 := by
  unfold handleSetBackendMode
  simp only [hv, if_true]
  set st1 : HandlerState := { st with
    clientAdapters := upd st.clientAdapters uid none,
    backendModes := upd st.backendModes uid (some (m.getD "orphiq")) } with hst1
  have hF1 : AdapterFreshFrom uid st.nextStamp st1 := by
    refine ⟨?_, Nat.le_refl _⟩
    intro b hb
    rw [hst1] at hb
    simp only [upd_self] at hb
    cases hb
  cases hga : getAdapter st1 uid with
  | ok r =>
    obtain ⟨st2, a⟩ := r
    simp only [hga]
    exact (freshFrom_getAdapter hF1 hga).1
  | error e =>
    simp only [hga]
    exact hF1

theorem freshFrom_of_eq {uid : String} {n : Nat} {st st' : HandlerState}
    (hF : AdapterFreshFrom uid n st)
    (hA : st'.clientAdapters = st.clientAdapters)
    (hN : st'.nextStamp = st.nextStamp) : AdapterFreshFrom uid n st' := by
  refine ⟨?_, ?_⟩
  · intro b hb
    rw [hA] at hb
    exact hF.1 b hb
  · rw [hN]
    exact hF.2

theorem freshFrom_upd_adapter {uid u : String} {n : Nat} {st : HandlerState}
    (hF : AdapterFreshFrom uid n st) (a' : Adapter)
    (hbound : u = uid → n ≤ a'.createdAt) :
    AdapterFreshFrom uid n
      { st with clientAdapters := upd st.clientAdapters u (some a') } := by
  refine ⟨?_, hF.2⟩
  intro b hb
  by_cases hu : uid = u
  · subst hu
    simp only [upd_self] at hb
    cases hb
    exact hbound rfl
  · simp only [upd_ne _ _ _ _ hu] at hb
    exact hF.1 b hb

theorem freshFrom_expressionCommand {uid : String} {n : Nat} {st : HandlerState}
    (u : String) (e d p : Option Int) (c : Bool) (s : Option String)
    (hF : AdapterFreshFrom uid n st) :
    AdapterFreshFrom uid n (handleExpressionCommand st u e d p c s).1 := by
  unfold handleExpressionCommand
  cases e with
  | none => exact hF
  | some e0 =>
    cases hga : getAdapter st u with
    | error m =>
      simp only [hga]
      exact hF
    | ok r =>
      obtain ⟨st1, a⟩ := r
      simp only [hga]
      obtain ⟨hF1, hbound⟩ := freshFrom_getAdapter hF hga
      apply freshFrom_upd_adapter hF1
      intro hu
      rw [triggerExpression_createdAt]
      exact hbound hu

theorem freshFrom_motionCommand {uid : String} {n : Nat} {st : HandlerState}
    (u : String) (g : Option String) (i : Option Int) (l : Option Bool)
    (p : Option Int) (c : Bool) (s : Option String)
    (hF : AdapterFreshFrom uid n st) :
    AdapterFreshFrom uid n (handleMotionCommand st u g i l p c s).1 := by
  unfold handleMotionCommand
  cases g with
  | none => cases i <;> exact hF
  | some g0 =>
    cases i with
    | none => exact hF
    | some i0 =>
      cases hga : getAdapter st u with
      | error m =>
        simp only [hga]
        exact hF
      | ok r =>
        obtain ⟨st1, a⟩ := r
        simp only [hga]
        obtain ⟨hF1, hbound⟩ := freshFrom_getAdapter hF hga
        apply freshFrom_upd_adapter hF1
        intro hu
        rw [triggerMotion_createdAt]
        exact hbound hu

theorem freshFrom_textGeneration {uid : String} {n : Nat} {st : HandlerState}
    (u : String) (pr : Option String) (run : AgentRun)
    (hF : AdapterFreshFrom uid n st) :
    AdapterFreshFrom uid n (handleTextGenerationRequest st u pr run).1 := by
  unfold handleTextGenerationRequest
  by_cases hp : pr.getD "" = ""
  · simp only [hp, if_true]
    exact hF
  · simp only [hp, if_false]
    cases hga : getAdapter st u with
    | error m =>
      simp only [hga]
      exact hF
    | ok r =>
      obtain ⟨st1, a⟩ := r
      simp only [hga]
      cases hgen : (generateText run).2 <;> simp only [hgen] <;>
        exact (freshFrom_getAdapter hF hga).1

theorem processVadEvents_passive (uid : String) :
    ∀ (events : List (List Nat)) (st : HandlerState),
      (processVadEvents st uid events).1.clientAdapters = st.clientAdapters ∧
      (processVadEvents st uid events).1.nextStamp = st.nextStamp
  | [], _ => ⟨rfl, rfl⟩
  | e :: rest, st => by
    unfold processVadEvents
    by_cases hp : e = pauseMarker
    · simp only [if_pos hp]
      exact processVadEvents_passive uid rest st
    · simp only [if_neg hp]
      by_cases hr : e = resumeMarker
      · simp only [if_pos hr]
        exact processVadEvents_passive uid rest st
      · simp only [if_neg hr]
        by_cases hbig : 1024 < e.length
        · simp only [if_pos hbig]
          cases hdec : decodeInt16 e with
          | none => exact ⟨rfl, rfl⟩
          | some samples =>
            cases hbuf : st.receivedDataBuffers uid with
            | none => exact ⟨rfl, rfl⟩
            | some buf =>
              exact processVadEvents_passive uid rest _
        · simp only [if_neg hbig]
          exact processVadEvents_passive uid rest st

theorem hstep_freshFrom {uid : String} {n : Nat} {st : HandlerState}
    (u : String) (m : HMsg) (hF : AdapterFreshFrom uid n st) :
    AdapterFreshFrom uid n (hstep st u m).1 := by
  cases m with
  | setBackendMode mo => exact freshFrom_setBackendMode u mo hF
  | getBackendMode => exact hF
  | expressionCommand e d p c s => exact freshFrom_expressionCommand u e d p c s hF
  | motionCommand g i l p c s => exact freshFrom_motionCommand u g i l p c s hF
  | textGenerationRequest pr run => exact freshFrom_textGeneration u pr run hF
  | interruptSignal t =>
    have he : (hstep st u (HMsg.interruptSignal t)).1 = st := by
      cases h : handleInterrupt st u t <;> simp [hstep, h]
    rw [he]
    exact hF
  | micAudioData a =>
    have he : (hstep st u (HMsg.micAudioData a)).1 = (handleAudioData st u a).1 := rfl
    rw [he]
    unfold handleAudioData
    cases hb : st.receivedDataBuffers u with
    | none => exact hF
    | some buf =>
      by_cases ha : a = []
      · simp only [if_pos ha]
        exact hF
      · simp only [if_neg ha]
        exact freshFrom_of_eq hF rfl rfl
  | rawAudioData c ev =>
    have he : (hstep st u (HMsg.rawAudioData c ev)).1 =
        (handleRawAudioData st u c ev).1 := rfl
    rw [he]
    unfold handleRawAudioData
    cases hc0 : st.clientContexts u with
    | none => exact hF
    | some ctx =>
      by_cases hc : c = []
      · simp only [if_pos hc]
        exact hF
      · simp only [if_neg hc]
        have h := processVadEvents_passive u ev st
        exact freshFrom_of_eq hF h.1 h.2

theorem runTrace_freshFrom {uid : String} {n : Nat} :
    ∀ (trace : List (String × HMsg)) (st : HandlerState),
      AdapterFreshFrom uid n st → AdapterFreshFrom uid n (runTrace st trace)
  | [], _, hF => hF
  | (u, m) :: rest, _st, hF =>
    runTrace_freshFrom rest _ (hstep_freshFrom u m hF)

/-- C1: after a set-backend-mode message with an accepted mode is handled
for a client, the adapter held for that client — now and after any further
sequence of handled messages — is never an instance created before the
switch: the cached instance is discarded during handling and every later
`_get_adapter` lookup for that client returns an instance stamped at or
after the switch. -/
theorem setBackendMode_no_stale_adapter (st : HandlerState) (uid : String)
    (modeField : Option String) (trace : List (String × HMsg))
    (hValid : modeField.getD "orphiq" ∈ validBackendModes) :
    (∀ a, (runTrace (handleSetBackendMode st uid modeField).1 trace).clientAdapters
        uid = some a → st.nextStamp ≤ a.createdAt) ∧
    (∀ st' a, getAdapter (runTrace (handleSetBackendMode st uid modeField).1 trace)
        uid = Except.ok (st', a) → st.nextStamp ≤ a.createdAt) := by
  have hF := runTrace_freshFrom trace _
    (setBackendMode_establishes_fresh st uid modeField hValid)
  refine ⟨hF.1, ?_⟩
  intro st' a h
  exact (freshFrom_getAdapter hF h).2 rfl

/-- Witness for C1: at `stA` (old adapter stamped 0, counter 1), switching
`"c"` to `"orphiq"` and then handling one more message leaves `"c"` holding
the fresh instance stamped 1 — provably at or after the switch stamp. -/
theorem setBackendMode_no_stale_adapter_witness :
    (some "orphiq" : Option String).getD "orphiq" ∈ validBackendModes ∧
    (runTrace (handleSetBackendMode stA "c" (some "orphiq")).1
        [("c", HMsg.getBackendMode)]).clientAdapters "c" =
      some (Adapter.mk sampleCtx 1 none none) ∧
    stA.nextStamp ≤ (Adapter.mk sampleCtx 1 none none).createdAt := by
  refine ⟨by decide, by decide, ?_⟩
  exact (setBackendMode_no_stale_adapter stA "c" (some "orphiq")
    [("c", HMsg.getBackendMode)] (by decide)).1 (Adapter.mk sampleCtx 1 none none)
    (by decide)

end AIdolVtuber
